import Mathlib

/-!
Verification development for the tab-scoped event router of the Amazon Q
chat webview (`src/plugins/amazonq/mynah-ui/src/mynah-ui/ui/connector.ts`).
The `Connector` class dispatches UI events to per-category sub-connectors
based on a tab-type lookup in a `TabsStorage` registry, demultiplexes
inbound host messages by a `sender` field, and gates
`requestGenerativeAIAnswer` on a readiness flag.

The embedding translates each router method into a pure function from the
connector state to the list of observable effects it produces (handler
invocations and messages sent to the extension), together with the updated
state for the methods that mutate the registry or the readiness flag.
`TabsStorage` and `isFormButtonCodeTransform` live in repository files that
are not part of the sources at hand; they are modelled from the
specification, as marked on their declarations.
-/

/-- Tab categories (`TabType`): the fixed enumerated set used by the
router's switches: generic chat (`cwc`), feature-dev, code-transform,
and `unknown` for a tab whose category is not yet determined. -/
inductive TabType
  | cwc
  | featuredev
  | codetransform
  | unknown
deriving DecidableEq, Repr

/-- Tab status, `free` or `busy`. -/
inductive TabStatus
  | free
  | busy
deriving DecidableEq, Repr

/-- A tab: identifier, category, status, selection flag, and optional
per-category metadata (interaction open type). -/
structure Tab where
  id : String
  type : TabType
  status : TabStatus
  isSelected : Bool
  openInteractionType : Option String := none
deriving DecidableEq, Repr

/-- Modelled from the spec: the `TabsStorage` registry
(`./storages/tabsStorage` is not among the sources at hand). "Registry:
mapping from tab identifier to Tab (keys unique)"; represented as a list
of tabs with unique identifiers. -/
structure TabsStorage where
  tabs : List Tab
deriving DecidableEq, Repr

/-- Modelled from the spec: `getTab(id)` looks the identifier up in the
registry. -/
def TabsStorage.getTab (s : TabsStorage) (tabID : String) : Option Tab :=
  s.tabs.find? (fun t => t.id == tabID)

/-- Modelled from the spec: "`addTab(id)`: inserts a new Tab ... No error
if id already exists — overwrites". -/
def TabsStorage.addTab (s : TabsStorage) (tab : Tab) : TabsStorage :=
  ⟨tab :: s.tabs.filter (fun t => !(t.id == tab.id))⟩

/-- Modelled from the spec: `deleteTab(id)` deletes the identifier from the
registry; no-op if absent. -/
def TabsStorage.deleteTab (s : TabsStorage) (tabID : String) : TabsStorage :=
  ⟨s.tabs.filter (fun t => !(t.id == tabID))⟩

/-- Modelled from the spec: "`setSelected(id)`: marks `id` selected,
unmarks the previously selected tab (if different), returns the previous
selection's identifier (or none)." -/
def TabsStorage.setSelectedTab (s : TabsStorage) (tabID : String) :
    TabsStorage × Option String :=
  (⟨s.tabs.map (fun t => { t with isSelected := t.id == tabID })⟩,
    (s.tabs.find? (fun t => t.isSelected)).map Tab.id)

/-- The per-category handlers the router owns: the CodeWhisperer chat
connector (`cwChatConnector`), the feature-dev chat connector, the
code-transform chat connector, and the Amazon Q commons connector. -/
inductive Handler
  | cw
  | featureDev
  | codeTransform
  | commons
deriving DecidableEq, Repr

/-- An observable effect of a router operation: delegating to a category
handler's method for a tab, or sending a message (identified by its
`command` field) to the extension. -/
inductive Effect
  | handlerCall (h : Handler) (method : String) (tabID : String)
  | extensionMessage (command : String)
deriving DecidableEq, Repr

/-- The router state: the tab registry plus the `isUIReady` flag
(initially false). -/
structure Connector where
  tabsStorage : TabsStorage
  isUIReady : Bool := false
deriving DecidableEq, Repr

namespace Connector

/-- `onSourceLinkClick`: switch on the tab's type; `cwc` delegates to the
chat handler, every other case (absent tab included) falls through. -/
def onSourceLinkClick (c : Connector) (tabID : String) : List Effect :=
  match (c.tabsStorage.getTab tabID).map Tab.type with
  | some TabType.cwc => [Effect.handlerCall Handler.cw "onSourceLinkClick" tabID]
  | _ => []

/-- `onResponseBodyLinkClick`: `cwc`, `featuredev` and `codetransform`
each delegate to their own handler; no default case. -/
def onResponseBodyLinkClick (c : Connector) (tabID : String) : List Effect :=
  match (c.tabsStorage.getTab tabID).map Tab.type with
  | some TabType.cwc => [Effect.handlerCall Handler.cw "onResponseBodyLinkClick" tabID]
  | some TabType.featuredev =>
      [Effect.handlerCall Handler.featureDev "onResponseBodyLinkClick" tabID]
  | some TabType.codetransform =>
      [Effect.handlerCall Handler.codeTransform "onResponseBodyLinkClick" tabID]
  | _ => []

/-- `onInfoLinkClick`: the switch has only a `default` branch, so every
tab type — and an absent tab — delegates to the chat handler. -/
def onInfoLinkClick (c : Connector) (tabID : String) : List Effect :=
  match (c.tabsStorage.getTab tabID).map Tab.type with
  | _ => [Effect.handlerCall Handler.cw "onInfoLinkClick" tabID]

/-- `requestAnswer`: only `codetransform` delegates; no default case. -/
def requestAnswer (c : Connector) (tabID : String) : List Effect :=
  match (c.tabsStorage.getTab tabID).map Tab.type with
  | some TabType.codetransform =>
      [Effect.handlerCall Handler.codeTransform "requestAnswer" tabID]
  | _ => []

/-- `clearChat`: only `cwc` delegates; no default case. -/
def clearChat (c : Connector) (tabID : String) : List Effect :=
  match (c.tabsStorage.getTab tabID).map Tab.type with
  | some TabType.cwc => [Effect.handlerCall Handler.cw "clearChat" tabID]
  | _ => []

/-- `help`: only `cwc` delegates; no default case. -/
def help (c : Connector) (tabID : String) : List Effect :=
  match (c.tabsStorage.getTab tabID).map Tab.type with
  | some TabType.cwc => [Effect.handlerCall Handler.cw "help" tabID]
  | _ => []

/-- `transform`: the switch has only a `default` branch, so every tab
type — and an absent tab — delegates to the code-transform handler. -/
def transform (c : Connector) (tabID : String) : List Effect :=
  match (c.tabsStorage.getTab tabID).map Tab.type with
  | _ => [Effect.handlerCall Handler.codeTransform "transform" tabID]

/-- `onTabAdd`: inserts a tab with type `unknown`, status `free`,
`isSelected: true` into the registry. -/
def onTabAdd (c : Connector) (tabID : String) : Connector :=
  let newTab : Tab :=
    { id := tabID, type := TabType.unknown, status := TabStatus.free,
      isSelected := true }
  { c with tabsStorage := c.tabsStorage.addTab newTab }

/-- `onUpdateTabType`: only `cwc` delegates (to the chat handler's
`onTabAdd`, passing the tab's open interaction type); no default case. -/
def onUpdateTabType (c : Connector) (tabID : String) : List Effect :=
  match (c.tabsStorage.getTab tabID).map Tab.type with
  | some TabType.cwc => [Effect.handlerCall Handler.cw "onTabAdd" tabID]
  | _ => []

/-- `onKnownTabOpen`: `featuredev` and `codetransform` delegate to their
handlers' `onTabOpen`; no default case. -/
def onKnownTabOpen (c : Connector) (tabID : String) : List Effect :=
  match (c.tabsStorage.getTab tabID).map Tab.type with
  | some TabType.featuredev => [Effect.handlerCall Handler.featureDev "onTabOpen" tabID]
  | some TabType.codetransform =>
      [Effect.handlerCall Handler.codeTransform "onTabOpen" tabID]
  | _ => []

/-- `onTabChange`: unconditionally updates the selection via
`setSelectedTab` and notifies the chat handler (passing the previous
selection). -/
def onTabChange (c : Connector) (tabId : String) : Connector × List Effect :=
  let r := c.tabsStorage.setSelectedTab tabId
  ({ c with tabsStorage := r.1 },
    [Effect.handlerCall Handler.cw "onTabChange" tabId])

/-- `onCodeInsertToCursorPosition`: `cwc` and `featuredev` delegate to
their handlers (with differing argument subsets); no default case. -/
def onCodeInsertToCursorPosition (c : Connector) (tabID : String) : List Effect :=
  match (c.tabsStorage.getTab tabID).map Tab.type with
  | some TabType.cwc =>
      [Effect.handlerCall Handler.cw "onCodeInsertToCursorPosition" tabID]
  | some TabType.featuredev =>
      [Effect.handlerCall Handler.featureDev "onCodeInsertToCursorPosition" tabID]
  | _ => []

/-- `onCopyCodeToClipboard`: `cwc` and `featuredev` delegate to their
handlers; no default case. -/
def onCopyCodeToClipboard (c : Connector) (tabID : String) : List Effect :=
  match (c.tabsStorage.getTab tabID).map Tab.type with
  | some TabType.cwc => [Effect.handlerCall Handler.cw "onCopyCodeToClipboard" tabID]
  | some TabType.featuredev =>
      [Effect.handlerCall Handler.featureDev "onCopyCodeToClipboard" tabID]
  | _ => []

/-- `onTabRemove`: looks the tab up, deletes it from the registry, then
switches on the pre-deletion type: `cwc`, `featuredev` and `codetransform`
notify their handlers; no default case. -/
def onTabRemove (c : Connector) (tabID : String) : Connector × List Effect :=
  let tab := c.tabsStorage.getTab tabID
  ({ c with tabsStorage := c.tabsStorage.deleteTab tabID },
    match tab.map Tab.type with
    | some TabType.cwc => [Effect.handlerCall Handler.cw "onTabRemove" tabID]
    | some TabType.featuredev =>
        [Effect.handlerCall Handler.featureDev "onTabRemove" tabID]
    | some TabType.codetransform =>
        [Effect.handlerCall Handler.codeTransform "onTabRemove" tabID]
    | _ => [])

/-- `uiReady`: sets the readiness flag and sends the `ui-is-ready`
message to the extension (the event-listener subscriptions have no
observable effect in this model). -/
def uiReady (c : Connector) : Connector × List Effect :=
  ({ c with isUIReady := true }, [Effect.extensionMessage "ui-is-ready"])

/-- `onAuthFollowUpClicked`: `codetransform`, `cwc` and `featuredev` all
delegate to the commons handler; no default case. -/
def onAuthFollowUpClicked (c : Connector) (tabID : String) : List Effect :=
  match (c.tabsStorage.getTab tabID).map Tab.type with
  | some TabType.codetransform =>
      [Effect.handlerCall Handler.commons "authFollowUpClicked" tabID]
  | some TabType.cwc => [Effect.handlerCall Handler.commons "authFollowUpClicked" tabID]
  | some TabType.featuredev =>
      [Effect.handlerCall Handler.commons "authFollowUpClicked" tabID]
  | _ => []

/-- `onFollowUpClicked`: `unknown` delegates to the commons handler,
`featuredev` and `codetransform` to their handlers, and the default case
(`cwc` or absent tab) to the chat handler. -/
def onFollowUpClicked (c : Connector) (tabID : String) : List Effect :=
  match (c.tabsStorage.getTab tabID).map Tab.type with
  | some TabType.unknown => [Effect.handlerCall Handler.commons "followUpClicked" tabID]
  | some TabType.featuredev =>
      [Effect.handlerCall Handler.featureDev "followUpClicked" tabID]
  | some TabType.codetransform =>
      [Effect.handlerCall Handler.codeTransform "followUpClicked" tabID]
  | _ => [Effect.handlerCall Handler.cw "followUpClicked" tabID]

/-- `onFileActionClick`: only `featuredev` delegates; no default case. -/
def onFileActionClick (c : Connector) (tabID : String) : List Effect :=
  match (c.tabsStorage.getTab tabID).map Tab.type with
  | some TabType.featuredev =>
      [Effect.handlerCall Handler.featureDev "onFileActionClick" tabID]
  | _ => []

/-- `onOpenDiff`: only `featuredev` delegates; no default case. -/
def onOpenDiff (c : Connector) (tabID : String) : List Effect :=
  match (c.tabsStorage.getTab tabID).map Tab.type with
  | some TabType.featuredev => [Effect.handlerCall Handler.featureDev "onOpenDiff" tabID]
  | _ => []

/-- `onStopChatResponse`: `featuredev` and `cwc` delegate to their
handlers; no default case. -/
def onStopChatResponse (c : Connector) (tabID : String) : List Effect :=
  match (c.tabsStorage.getTab tabID).map Tab.type with
  | some TabType.featuredev =>
      [Effect.handlerCall Handler.featureDev "onStopChatResponse" tabID]
  | some TabType.cwc => [Effect.handlerCall Handler.cw "onStopChatResponse" tabID]
  | _ => []

/-- `sendFeedback`: `featuredev` delegates to its handler's
`sendFeedback`, `cwc` to the chat handler's `onSendFeedback`; no default
case. -/
def sendFeedback (c : Connector) (tabId : String) : List Effect :=
  match (c.tabsStorage.getTab tabId).map Tab.type with
  | some TabType.featuredev =>
      [Effect.handlerCall Handler.featureDev "sendFeedback" tabId]
  | some TabType.cwc => [Effect.handlerCall Handler.cw "onSendFeedback" tabId]
  | _ => []

/-- `onChatItemVoted`: `cwc` and `featuredev` delegate to their handlers;
no default case. -/
def onChatItemVoted (c : Connector) (tabId : String) : List Effect :=
  match (c.tabsStorage.getTab tabId).map Tab.type with
  | some TabType.cwc => [Effect.handlerCall Handler.cw "onChatItemVoted" tabId]
  | some TabType.featuredev =>
      [Effect.handlerCall Handler.featureDev "onChatItemVoted" tabId]
  | _ => []

/-- `onFormButtonClick`, parameterised by the predicate
`isFormButtonCodeTransform` (modelled from the spec: `./forms/constants`
is not among the sources at hand, so the predicate on action identifiers
is kept abstract). If the action identifier is a code-transform form
button, delegate to the code-transform handler — regardless of the tab;
then, independently, if the tab's type is `cwc` and the action identifier
is `open-settings`, send the `open-settings` message to the extension. -/
def onFormButtonClick (isFormButtonCodeTransform : String → Bool)
    (c : Connector) (tabId : String) (actionId : String) : List Effect :=
  (if isFormButtonCodeTransform actionId then
    [Effect.handlerCall Handler.codeTransform "onFormButtonClick" tabId]
  else []) ++
  (match (c.tabsStorage.getTab tabId).map Tab.type with
  | some TabType.cwc =>
      if actionId = "open-settings" then [Effect.extensionMessage "open-settings"]
      else []
  | _ => [])

end Connector

/-- The error raised by the platform `JSON.parse` on malformed serialized
content (a JavaScript `SyntaxError`; the spec calls it `ParseError`). -/
inductive ParseError
  | parseError
deriving DecidableEq, Repr

/-- The JavaScript value a successful `JSON.parse` produces, as far as
`handleMessageReceive` inspects it: either `undefined` (checked for
defensively right after the parse) or an object whose `sender` field is a
string or absent. -/
inductive ParsedValue
  | undef
  | obj (sender : Option String)
deriving DecidableEq, Repr

/-- The raw serialized payload of a host message, classified by the
outcome of the platform `JSON.parse` on it: `malformed` is a payload on
which `JSON.parse` throws a `ParseError`; `wellFormed v` is a payload that
parses to the value `v`. -/
inductive RawPayload
  | malformed
  | wellFormed (v : ParsedValue)
deriving DecidableEq, Repr

namespace Connector

/-- `handleMessageReceive`: the argument is the `data` field of the
message event (`none` models `undefined`). If `data` is `undefined`,
return with no dispatch. Then `JSON.parse(message.data)` runs with no
try/catch around it (the source carries a TODO noting the potential json
parsing error), so a malformed payload propagates the `ParseError` out of
the method, rejecting the returned promise. A parsed message is
demultiplexed on its `sender` field: `CWChat` to the chat handler,
`featureDevChat` to the feature-dev handler, `codetransform` to the
code-transform handler, anything else to no handler at all. -/
def handleMessageReceive (data : Option RawPayload) :
    Except ParseError (Option Handler) :=
  match data with
  | none => Except.ok none
  | some RawPayload.malformed => Except.error ParseError.parseError
  | some (RawPayload.wellFormed v) =>
    match v with
    | ParsedValue.undef => Except.ok none
    | ParsedValue.obj sender =>
      if sender = some "CWChat" then Except.ok (some Handler.cw)
      else if sender = some "featureDevChat" then Except.ok (some Handler.featureDev)
      else if sender = some "codetransform" then Except.ok (some Handler.codeTransform)
      else Except.ok none

end Connector

/-- A primitive step the `requestGenerativeAIAnswer` promise executor can
take: delegate to a category handler, schedule a retry via `setTimeout`,
or settle the promise by calling `resolve` or `reject`. -/
inductive ExecutorOp
  | callHandler (h : Handler) (tabID : String)
  | schedule (delayMs : Nat)
  | callResolve
  | callReject
deriving DecidableEq, Repr

/-- Whether an executor op is a category-handler invocation. -/
def ExecutorOp.isCallHandler : ExecutorOp → Bool
  | ExecutorOp.callHandler _ _ => true
  | _ => false

/-- Whether an executor op settles the promise (a `resolve` or `reject`
call). -/
def ExecutorOp.settles : ExecutorOp → Bool
  | ExecutorOp.callResolve => true
  | ExecutorOp.callReject => true
  | _ => false

namespace Connector

/-- The body of the promise executor of `requestGenerativeAIAnswer`, as
the sequence of primitive steps it performs: when `isUIReady` holds, a
`featuredev` tab delegates to the feature-dev handler and every other tab
type (or an absent tab) to the chat handler; otherwise it schedules a
retry of itself 2000ms later and returns. The body contains no `resolve`
or `reject` call. -/
def requestGenerativeAIAnswer (c : Connector) (tabID : String) : List ExecutorOp :=
  if c.isUIReady then
    match (c.tabsStorage.getTab tabID).map Tab.type with
    | some TabType.featuredev => [ExecutorOp.callHandler Handler.featureDev tabID]
    | _ => [ExecutorOp.callHandler Handler.cw tabID]
  else [ExecutorOp.schedule 2000]

end Connector

/-- The executor steps performed by the `requestGenerativeAIAnswer` retry
chain at clock time `t` (milliseconds), when the environment calls
`uiReady` at time `readyAt`: the connector's `isUIReady` flag reads true
exactly when `readyAt ≤ t`. -/
def rgaTickOps (storage : TabsStorage) (readyAt : Nat) (tabID : String)
    (t : Nat) : List ExecutorOp :=
  Connector.requestGenerativeAIAnswer ⟨storage, decide (readyAt ≤ t)⟩ tabID

/-- The clock time at which the retry chain started at time `t` first
invokes a category handler, within `fuel` attempts: each attempt that only
schedules a retry is followed by the next attempt 2000ms later, exactly as
the `setTimeout` resubmission does. -/
def rgaFirstInvoke (storage : TabsStorage) (readyAt : Nat) (tabID : String) :
    Nat → Nat → Option Nat
  | 0, _ => none
  | fuel + 1, t =>
    if (rgaTickOps storage readyAt tabID t).any ExecutorOp.isCallHandler then some t
    else rgaFirstInvoke storage readyAt tabID fuel (t + 2000)

/-- A connector in its initial state: empty registry, not yet ready. -/
def emptyConnector : Connector := { tabsStorage := ⟨[]⟩, isUIReady := false }

/-- Claim C1: the spec's policy is that a host payload that fails to parse
is caught and discarded, so `handleMessageReceive` returns normally for
all inputs. The source, however, runs `JSON.parse` with no try/catch (its
own TODO comment acknowledges the potential json parsing error), so a
malformed payload propagates the parse error out of the method: evaluating
the embedded code at such a payload yields the error, not a normal
return. -/
theorem handleMessageReceive_malformed_input_raises :
    Connector.handleMessageReceive (some RawPayload.malformed) =
      Except.error ParseError.parseError := rfl

/-- Claim C6: `onTabAdd` with any identifier inserts into the registry a
tab whose category is `unknown`, whose status is `free`, and whose
selected flag is true. -/
theorem onTabAdd_inserts_unknown_free_selected (c : Connector) (tabID : String) :
    (c.onTabAdd tabID).tabsStorage.getTab tabID =
      some { id := tabID, type := TabType.unknown, status := TabStatus.free,
             isSelected := true } := by
  simp [Connector.onTabAdd, TabsStorage.addTab, TabsStorage.getTab, List.find?_cons]

/-- Claim C7: a successfully parsed host message is demultiplexed by its
`sender` field to exactly one handler: `CWChat` to the chat handler,
`featureDevChat` to the feature-dev handler, `codetransform` to the
code-transform handler, and any other (or missing) sender to no handler
at all. -/
theorem handleMessageReceive_demux_by_sender (sender : Option String) :
    (Connector.handleMessageReceive (some (RawPayload.wellFormed (ParsedValue.obj sender))) =
        Except.ok (some Handler.cw) ↔ sender = some "CWChat") ∧
    (Connector.handleMessageReceive (some (RawPayload.wellFormed (ParsedValue.obj sender))) =
        Except.ok (some Handler.featureDev) ↔ sender = some "featureDevChat") ∧
    (Connector.handleMessageReceive (some (RawPayload.wellFormed (ParsedValue.obj sender))) =
        Except.ok (some Handler.codeTransform) ↔ sender = some "codetransform") ∧
    (Connector.handleMessageReceive (some (RawPayload.wellFormed (ParsedValue.obj sender))) =
        Except.ok none ↔
      (sender ≠ some "CWChat" ∧ sender ≠ some "featureDevChat" ∧
        sender ≠ some "codetransform")) := by
  unfold Connector.handleMessageReceive
  dsimp only
  split_ifs with h1 h2 h3 <;> simp_all

/-- Claim C9: the promise returned by `requestGenerativeAIAnswer` never
settles: in both the ready branch and the not-ready retry branch the
executor body performs no `resolve` and no `reject` call, so no awaiting
caller ever observes completion or failure. -/
theorem requestGenerativeAIAnswer_promise_never_settles (c : Connector) (tabID : String) :
    (c.requestGenerativeAIAnswer tabID).any ExecutorOp.settles = false := by
  unfold Connector.requestGenerativeAIAnswer
  by_cases h : c.isUIReady
  · rcases e : (c.tabsStorage.getTab tabID).map Tab.type with _ | tt
    · simp [h, e, ExecutorOp.settles]
    · cases tt <;> simp [h, e, ExecutorOp.settles]
  · simp [h, ExecutorOp.settles]

/-- Claim C3: `onFollowUpClicked` routes by the tab's category: `unknown`
delegates to the commons handler, `featuredev` to the feature-dev handler,
`codetransform` to the code-transform handler, and every other category —
a missing tab included — to the chat handler as the default case. -/
theorem onFollowUpClicked_routes_by_category (c : Connector) (tabID : String) :
    ((c.tabsStorage.getTab tabID).map Tab.type = some TabType.unknown →
      c.onFollowUpClicked tabID =
        [Effect.handlerCall Handler.commons "followUpClicked" tabID]) ∧
    ((c.tabsStorage.getTab tabID).map Tab.type = some TabType.featuredev →
      c.onFollowUpClicked tabID =
        [Effect.handlerCall Handler.featureDev "followUpClicked" tabID]) ∧
    ((c.tabsStorage.getTab tabID).map Tab.type = some TabType.codetransform →
      c.onFollowUpClicked tabID =
        [Effect.handlerCall Handler.codeTransform "followUpClicked" tabID]) ∧
    (((c.tabsStorage.getTab tabID).map Tab.type ≠ some TabType.unknown ∧
      (c.tabsStorage.getTab tabID).map Tab.type ≠ some TabType.featuredev ∧
      (c.tabsStorage.getTab tabID).map Tab.type ≠ some TabType.codetransform) →
      c.onFollowUpClicked tabID =
        [Effect.handlerCall Handler.cw "followUpClicked" tabID]) := by
  refine ⟨fun h => by simp [Connector.onFollowUpClicked, h],
    fun h => by simp [Connector.onFollowUpClicked, h],
    fun h => by simp [Connector.onFollowUpClicked, h], fun h => ?_⟩
  obtain ⟨h1, h2, h3⟩ := h
  rcases e : (c.tabsStorage.getTab tabID).map Tab.type with _ | tt
  · simp [Connector.onFollowUpClicked, e]
  · cases tt <;> simp_all [Connector.onFollowUpClicked, e]

/-- Deleting an identifier that the registry does not hold leaves the
registry unchanged. -/
theorem TabsStorage.deleteTab_of_getTab_none (s : TabsStorage) (tabID : String)
    (h : s.getTab tabID = none) : s.deleteTab tabID = s := by
  unfold TabsStorage.getTab at h
  rw [List.find?_eq_none] at h
  unfold TabsStorage.deleteTab
  cases s with
  | mk tabs =>
    simp only [TabsStorage.mk.injEq]
    rw [List.filter_eq_self]
    intro a ha
    simp [h a ha]

/-- Claim C5: `onTabRemove` looks the tab up, deletes it from the
registry, then forwards the teardown notification to the handler matching
the tab's pre-deletion category (chat, feature-dev or code-transform; an
`unknown` tab matches none); when the identifier is absent the state is
unchanged, no handler is invoked and no error is raised. -/
theorem onTabRemove_deletes_then_notifies (c : Connector) (tabID : String) :
    ((c.tabsStorage.getTab tabID = none →
      (c.onTabRemove tabID).1 = c ∧ (c.onTabRemove tabID).2 = []) ∧
    (∀ tab, c.tabsStorage.getTab tabID = some tab →
      (c.onTabRemove tabID).1.tabsStorage = c.tabsStorage.deleteTab tabID ∧
      (c.onTabRemove tabID).2 =
        (match tab.type with
        | TabType.cwc => [Effect.handlerCall Handler.cw "onTabRemove" tabID]
        | TabType.featuredev =>
            [Effect.handlerCall Handler.featureDev "onTabRemove" tabID]
        | TabType.codetransform =>
            [Effect.handlerCall Handler.codeTransform "onTabRemove" tabID]
        | TabType.unknown => []))) := by
  constructor
  · intro h
    constructor
    · simp [Connector.onTabRemove, TabsStorage.deleteTab_of_getTab_none c.tabsStorage tabID h]
    · simp [Connector.onTabRemove, h]
  · intro tab h
    constructor
    · simp [Connector.onTabRemove]
    · cases e : tab.type <;> simp [Connector.onTabRemove, h, e]

/-- Claim C10: `onFormButtonClick` routes by the action identifier, not
only by tab category: the code-transform handler is invoked exactly when
the action identifier is a code-transform form button (whatever the tab's
category, and whether or not the tab exists), and — independently — the
`open-settings` message is sent to the extension exactly when the tab's
category is `cwc` and the action identifier is `open-settings`; both
effects occur in one call exactly when both conditions hold. -/
theorem onFormButtonClick_routes_by_action (isFormButtonCodeTransform : String → Bool)
    (c : Connector) (tabId actionId : String) :
    (Effect.handlerCall Handler.codeTransform "onFormButtonClick" tabId ∈
        Connector.onFormButtonClick isFormButtonCodeTransform c tabId actionId ↔
      isFormButtonCodeTransform actionId = true) ∧
    (Effect.extensionMessage "open-settings" ∈
        Connector.onFormButtonClick isFormButtonCodeTransform c tabId actionId ↔
      ((c.tabsStorage.getTab tabId).map Tab.type = some TabType.cwc ∧
        actionId = "open-settings")) ∧
    ((Effect.handlerCall Handler.codeTransform "onFormButtonClick" tabId ∈
        Connector.onFormButtonClick isFormButtonCodeTransform c tabId actionId ∧
      Effect.extensionMessage "open-settings" ∈
        Connector.onFormButtonClick isFormButtonCodeTransform c tabId actionId) ↔
      (isFormButtonCodeTransform actionId = true ∧
        (c.tabsStorage.getTab tabId).map Tab.type = some TabType.cwc ∧
        actionId = "open-settings")) := by
  unfold Connector.onFormButtonClick
  rcases e : (c.tabsStorage.getTab tabId).map Tab.type with _ | tt
  · by_cases hp : isFormButtonCodeTransform actionId <;>
      by_cases ha : actionId = "open-settings" <;> simp_all
  · cases tt <;> by_cases hp : isFormButtonCodeTransform actionId <;>
      by_cases ha : actionId = "open-settings" <;> simp_all

/-- Claim C2 counterexample: `onInfoLinkClick` is a dispatch operation of
the router, yet on a tab identifier that was never added (the registry is
empty) it is not a no-op: its switch has only a `default` branch, so it
invokes the chat handler. -/
theorem onInfoLinkClick_never_added_tab_invokes_chat_handler :
    emptyConnector.tabsStorage.getTab "t1" = none ∧
    emptyConnector.onInfoLinkClick "t1" =
      [Effect.handlerCall Handler.cw "onInfoLinkClick" "t1"] := ⟨rfl, rfl⟩

/-- Claim C2 (amended): for a tab identifier that was never added, every
dispatch operation whose switch has no `default` branch is a no-op —
no exception, no category-handler invocation, no message to the
extension; the operations with a `default` branch (`onInfoLinkClick`,
`transform`, `onFollowUpClicked`, `onTabChange`, the ready branch of
`requestGenerativeAIAnswer`, and `onFormButtonClick` for a code-transform
action) invoke their default handler instead. -/
theorem dispatch_noop_on_never_added_tab (c : Connector) (tabID : String)
    (h : c.tabsStorage.getTab tabID = none) :
    c.onSourceLinkClick tabID = [] ∧
    c.onResponseBodyLinkClick tabID = [] ∧
    c.requestAnswer tabID = [] ∧
    c.clearChat tabID = [] ∧
    c.help tabID = [] ∧
    c.onUpdateTabType tabID = [] ∧
    c.onKnownTabOpen tabID = [] ∧
    c.onCodeInsertToCursorPosition tabID = [] ∧
    c.onCopyCodeToClipboard tabID = [] ∧
    (c.onTabRemove tabID).2 = [] ∧
    c.onAuthFollowUpClicked tabID = [] ∧
    c.onFileActionClick tabID = [] ∧
    c.onOpenDiff tabID = [] ∧
    c.onStopChatResponse tabID = [] ∧
    c.sendFeedback tabID = [] ∧
    c.onChatItemVoted tabID = [] := by
  refine ⟨?_, ?_, ?_, ?_, ?_, ?_, ?_, ?_, ?_, ?_, ?_, ?_, ?_, ?_, ?_, ?_⟩ <;>
    simp [Connector.onSourceLinkClick, Connector.onResponseBodyLinkClick,
      Connector.requestAnswer, Connector.clearChat, Connector.help,
      Connector.onUpdateTabType, Connector.onKnownTabOpen,
      Connector.onCodeInsertToCursorPosition, Connector.onCopyCodeToClipboard,
      Connector.onTabRemove, Connector.onAuthFollowUpClicked,
      Connector.onFileActionClick, Connector.onOpenDiff,
      Connector.onStopChatResponse, Connector.sendFeedback,
      Connector.onChatItemVoted, h]

/-- Witness for the amended claim C2, at the empty registry and the
identifier `t2`: the hypothesis (the tab was never added) holds there and
the first no-op conclusion follows by the theorem. -/
theorem dispatch_noop_on_never_added_tab_witness :
    emptyConnector.tabsStorage.getTab "t2" = none ∧
    Connector.onSourceLinkClick emptyConnector "t2" = [] :=
  ⟨rfl, (dispatch_noop_on_never_added_tab emptyConnector "t2" rfl).1⟩

/-- Tab identifiers are unique in the registry, so at most one tab can
match a given identifier. -/
theorem countP_matching_id_le_one (l : List Tab) (tabID : String)
    (h : (l.map Tab.id).Nodup) : l.countP (fun t => t.id == tabID) ≤ 1 := by
  have h1 : (l.map Tab.id).count tabID ≤ 1 := List.nodup_iff_count_le_one.mp h tabID
  calc l.countP (fun t => t.id == tabID)
      = (l.map Tab.id).countP (fun s => s == tabID) := by rw [List.countP_map]; rfl
    _ ≤ 1 := h1

/-- Claim C8 counterexample: `onTabAdd` inserts with the selected flag set
without unmarking the previous selection, so after adding `a` and then `b`
to an empty registry two tabs are selected at once — the at-most-one-
selected invariant is not preserved by every router operation. -/
theorem onTabAdd_breaks_single_selection :
    ¬ ((((emptyConnector.onTabAdd "a").onTabAdd "b").tabsStorage.tabs.countP
        (fun t => t.isSelected)) ≤ 1) := by decide

/-- Claim C8 (amended): `setSelected` (`onTabChange`) marks the given
identifier selected, unmarks every other tab, and returns the previous
selection's identifier (or none), so after it at most one tab is selected
(given unique identifiers) and only the given identifier can be selected;
`onTabRemove` also preserves the at-most-one-selected bound. `onTabAdd`,
however, inserts with the selected flag set without unmarking the previous
selection, so it does not preserve the invariant. -/
theorem setSelectedTab_single_selection (c : Connector) (tabID : String)
    (h : (c.tabsStorage.tabs.map Tab.id).Nodup) :
    ((c.onTabChange tabID).1.tabsStorage.tabs.countP (fun t => t.isSelected) ≤ 1) ∧
    ((c.onTabChange tabID).1.tabsStorage = (c.tabsStorage.setSelectedTab tabID).1) ∧
    (∀ t ∈ (c.tabsStorage.setSelectedTab tabID).1.tabs,
        t.isSelected = true → t.id = tabID) ∧
    (∀ tab, c.tabsStorage.tabs.find? (fun u => u.isSelected) = some tab →
        (c.tabsStorage.setSelectedTab tabID).2 = some tab.id) ∧
    (c.tabsStorage.tabs.find? (fun u => u.isSelected) = none →
        (c.tabsStorage.setSelectedTab tabID).2 = none) ∧
    ((c.onTabRemove tabID).1.tabsStorage.tabs.countP (fun t => t.isSelected) ≤
        c.tabsStorage.tabs.countP (fun t => t.isSelected)) := by
  refine ⟨?_, rfl, ?_, ?_, ?_, ?_⟩
  · have := countP_matching_id_le_one c.tabsStorage.tabs tabID h
    simpa [Connector.onTabChange, TabsStorage.setSelectedTab, List.countP_map]
      using this
  · intro t ht hsel
    simp only [TabsStorage.setSelectedTab, List.mem_map] at ht
    obtain ⟨u, _, rfl⟩ := ht
    simpa using hsel
  · intro tab htab
    simp [TabsStorage.setSelectedTab, htab]
  · intro hnone
    simp [TabsStorage.setSelectedTab, hnone]
  · exact (List.filter_sublist _).countP_le _

/-- Witness for the amended claim C8, at a registry holding the single tab
`a` (identifiers are unique there) and the identifier `b`. -/
theorem setSelectedTab_single_selection_witness :
    ((([⟨"a", TabType.unknown, TabStatus.free, true, none⟩] : List Tab).map
        Tab.id).Nodup) ∧
    ((Connector.onTabChange
        ⟨⟨[⟨"a", TabType.unknown, TabStatus.free, true, none⟩]⟩, false⟩
        "b").1.tabsStorage.tabs.countP (fun t => t.isSelected) ≤ 1) :=
  ⟨by decide,
    (setSelectedTab_single_selection
      ⟨⟨[⟨"a", TabType.unknown, TabStatus.free, true, none⟩]⟩, false⟩ "b"
      (by decide)).1⟩

/-- When the readiness flag reads true, the executor invokes the category
handler in one step: the feature-dev handler for a `featuredev` tab, the
chat handler for every other tab type or an absent tab. -/
theorem rgaTickOps_ready (storage : TabsStorage) (readyAt : Nat) (tabID : String)
    (t : Nat) (h : readyAt ≤ t) :
    rgaTickOps storage readyAt tabID t =
      [ExecutorOp.callHandler
        (if (storage.getTab tabID).map Tab.type = some TabType.featuredev then
          Handler.featureDev else Handler.cw) tabID] := by
  unfold rgaTickOps Connector.requestGenerativeAIAnswer
  rcases e : (storage.getTab tabID).map Tab.type with _ | tt
  · simp [h, e]
  · cases tt <;> simp [h, e]

/-- While the readiness flag reads false, the executor only schedules a
retry 2000ms later; no handler is invoked. -/
theorem rgaTickOps_not_ready (storage : TabsStorage) (readyAt : Nat) (tabID : String)
    (t : Nat) (h : ¬ readyAt ≤ t) :
    rgaTickOps storage readyAt tabID t = [ExecutorOp.schedule 2000] := by
  unfold rgaTickOps Connector.requestGenerativeAIAnswer
  simp [h]

/-- Unfolding equation of the retry chain at one remaining attempt plus
`fuel` more. -/
theorem rgaFirstInvoke_succ (storage : TabsStorage) (readyAt : Nat) (tabID : String)
    (fuel t : Nat) :
    rgaFirstInvoke storage readyAt tabID (fuel + 1) t =
      if (rgaTickOps storage readyAt tabID t).any ExecutorOp.isCallHandler then some t
      else rgaFirstInvoke storage readyAt tabID fuel (t + 2000) := rfl

/-- Claim C4: `requestGenerativeAIAnswer` is gated on the readiness flag.
A call made at time `t` while the router becomes ready at time `readyAt`
reschedules itself every 2000ms while not ready, invoking no handler at
any of those ticks, and at the first retry tick at which readiness holds
(within 2000ms of `readyAt`, or immediately if already ready) it invokes
the category handler — the feature-dev handler for a `featuredev` tab, the
chat handler otherwise — and never beforehand. -/
theorem requestGenerativeAIAnswer_ready_gate (storage : TabsStorage)
    (tabID : String) (readyAt t fuel : Nat)
    (hfuel : readyAt ≤ t + 2000 * fuel) :
    ∃ s, rgaFirstInvoke storage readyAt tabID (fuel + 1) t = some s ∧
      t ≤ s ∧ readyAt ≤ s ∧
      (∀ k, t + 2000 * k < s →
        rgaTickOps storage readyAt tabID (t + 2000 * k) = [ExecutorOp.schedule 2000]) ∧
      rgaTickOps storage readyAt tabID s =
        [ExecutorOp.callHandler
          (if (storage.getTab tabID).map Tab.type = some TabType.featuredev then
            Handler.featureDev else Handler.cw) tabID] ∧
      (s = t ∨ s < readyAt + 2000) := by
  induction fuel generalizing t with
  | zero =>
    have hrt : readyAt ≤ t := by omega
    refine ⟨t, ?_, Nat.le_refl t, hrt, ?_,
      rgaTickOps_ready storage readyAt tabID t hrt, Or.inl rfl⟩
    · rw [rgaFirstInvoke_succ, rgaTickOps_ready storage readyAt tabID t hrt]
      simp [ExecutorOp.isCallHandler]
    · intro k hk
      omega
  | succ n ih =>
    by_cases hrt : readyAt ≤ t
    · refine ⟨t, ?_, Nat.le_refl t, hrt, ?_,
        rgaTickOps_ready storage readyAt tabID t hrt, Or.inl rfl⟩
      · rw [rgaFirstInvoke_succ, rgaTickOps_ready storage readyAt tabID t hrt]
        simp [ExecutorOp.isCallHandler]
      · intro k hk
        omega
    · have hnext : readyAt ≤ (t + 2000) + 2000 * n := by omega
      obtain ⟨s, hs, hts, hras, hsched, hinv, hlast⟩ := ih (t + 2000) hnext
      refine ⟨s, ?_, by omega, hras, ?_, hinv, ?_⟩
      · rw [rgaFirstInvoke_succ, rgaTickOps_not_ready storage readyAt tabID t hrt]
        simpa [ExecutorOp.isCallHandler] using hs
      · intro k hk
        cases k with
        | zero =>
          simpa using rgaTickOps_not_ready storage readyAt tabID t hrt
        | succ k' =>
          have harith : t + 2000 * (k' + 1) = (t + 2000) + 2000 * k' := by ring
          rw [harith]
          exact hsched k' (by omega)
      · rcases hlast with h1 | h2
        · right
          omega
        · right
          exact h2

/-- Witness for claim C4, at the empty registry, identifier `t1`,
readiness reached at 3000ms, first call at time 0, two retries of fuel:
the hypothesis holds and the gate theorem applies. -/
theorem requestGenerativeAIAnswer_ready_gate_witness :
    (3000 ≤ 0 + 2000 * 2) ∧
    (∃ s, rgaFirstInvoke ⟨[]⟩ 3000 "t1" (2 + 1) 0 = some s ∧
      0 ≤ s ∧ 3000 ≤ s ∧
      (∀ k, 0 + 2000 * k < s →
        rgaTickOps ⟨[]⟩ 3000 "t1" (0 + 2000 * k) = [ExecutorOp.schedule 2000]) ∧
      rgaTickOps ⟨[]⟩ 3000 "t1" s =
        [ExecutorOp.callHandler
          (if (TabsStorage.getTab ⟨[]⟩ "t1").map Tab.type = some TabType.featuredev
          then Handler.featureDev else Handler.cw) "t1"] ∧
      (s = 0 ∨ s < 3000 + 2000)) :=
  ⟨by norm_num, requestGenerativeAIAnswer_ready_gate ⟨[]⟩ "t1" 3000 0 2 (by norm_num)⟩
